import Mathlib

/-!
Shallow embedding of the snoo OAuth2 credential manager
(`src/auth/mod.rs`, `src/auth/authentication.rs`) in Lean 4,
with theorems checking the natural-language specification against it.

Time is modelled in whole seconds (`Nat`): `Instant::now()` becomes an
explicit `now : Nat` argument, and `created_at.elapsed().as_secs()`
becomes `now - created_at` (truncated subtraction, as `Instant` is
monotone and `now ≥ created_at` at every use site).
-/

namespace Snoo

/-- The `Scope` enumeration from `src/auth/mod.rs`, in declaration order
(the derived Rust `Ord` sorts by this order). -/
inductive Scope where
  | All
  | Account
  | Creddits
  | Edit
  | Flair
  | History
  | Identity
  | LiveManage
  | ModConfig
  | ModContributors
  | ModFlair
  | ModLog
  | ModMail
  | ModOthers
  | ModPosts
  | ModSelf
  | ModTraffic
  | ModWiki
  | MySubreddits
  | PrivateMessages
  | Read
  | Report
  | Save
  | StructuredStyles
  | Submit
  | Subscribe
  | Vote
  | WikiEdit
  | WikiRead
deriving DecidableEq, Fintype

/-- Declaration index of a `Scope` constructor; the derived Rust `Ord`
compares constructors by this index. -/
def Scope.toIdx : Scope → Nat
  | .All => 0
  | .Account => 1
  | .Creddits => 2
  | .Edit => 3
  | .Flair => 4
  | .History => 5
  | .Identity => 6
  | .LiveManage => 7
  | .ModConfig => 8
  | .ModContributors => 9
  | .ModFlair => 10
  | .ModLog => 11
  | .ModMail => 12
  | .ModOthers => 13
  | .ModPosts => 14
  | .ModSelf => 15
  | .ModTraffic => 16
  | .ModWiki => 17
  | .MySubreddits => 18
  | .PrivateMessages => 19
  | .Read => 20
  | .Report => 21
  | .Save => 22
  | .StructuredStyles => 23
  | .Submit => 24
  | .Subscribe => 25
  | .Vote => 26
  | .WikiEdit => 27
  | .WikiRead => 28

/-- The `Display` impl for `Scope` (`src/auth/mod.rs`, lines 87-123). -/
def Scope.toStr : Scope → String
  | .All => "*"
  | .Account => "account"
  | .Creddits => "creddits"
  | .Edit => "edit"
  | .Flair => "flair"
  | .History => "history"
  | .Identity => "identity"
  | .LiveManage => "livemanage"
  | .ModConfig => "modconfig"
  | .ModContributors => "modcontributors"
  | .ModFlair => "modflair"
  | .ModLog => "modlog"
  | .ModMail => "modmail"
  | .ModOthers => "modothers"
  | .ModPosts => "modposts"
  | .ModSelf => "modself"
  | .ModTraffic => "modtraffic"
  | .ModWiki => "modwiki"
  | .MySubreddits => "mysubreddits"
  | .PrivateMessages => "privatemessages"
  | .Read => "read"
  | .Report => "report"
  | .Save => "save"
  | .StructuredStyles => "structuredstyles"
  | .Submit => "submit"
  | .Subscribe => "subscribe"
  | .Vote => "vote"
  | .WikiEdit => "wikiedit"
  | .WikiRead => "wikiread"

/-- The `FromStr` impl for `Scope` (`src/auth/mod.rs`, lines 125-164):
unknown tokens are a hard error. -/
def Scope.fromStr (s : String) : Except String Scope :=
  match s with
  | "*" => .ok .All
  | "account" => .ok .Account
  | "creddits" => .ok .Creddits
  | "edit" => .ok .Edit
  | "flair" => .ok .Flair
  | "history" => .ok .History
  | "identity" => .ok .Identity
  | "livemanage" => .ok .LiveManage
  | "modconfig" => .ok .ModConfig
  | "modcontributors" => .ok .ModContributors
  | "modflair" => .ok .ModFlair
  | "modlog" => .ok .ModLog
  | "modmail" => .ok .ModMail
  | "modothers" => .ok .ModOthers
  | "modposts" => .ok .ModPosts
  | "modself" => .ok .ModSelf
  | "modtraffic" => .ok .ModTraffic
  | "modwiki" => .ok .ModWiki
  | "mysubreddits" => .ok .MySubreddits
  | "privatemessages" => .ok .PrivateMessages
  | "read" => .ok .Read
  | "report" => .ok .Report
  | "save" => .ok .Save
  | "structuredstyles" => .ok .StructuredStyles
  | "submit" => .ok .Submit
  | "subscribe" => .ok .Subscribe
  | "vote" => .ok .Vote
  | "wikiedit" => .ok .WikiEdit
  | "wikiread" => .ok .WikiRead
  | _ => .error ("unknown scope " ++ s)

theorem Scope.toIdx_inj : ∀ a b : Scope, a.toIdx = b.toIdx → a = b := by decide

/-- The ordering on `Scope` induced by the derived Rust `Ord`
(declaration order). -/
def Scope.le (a b : Scope) : Prop := a.toIdx ≤ b.toIdx

instance : DecidableRel Scope.le :=
  fun a b => inferInstanceAs (Decidable (a.toIdx ≤ b.toIdx))

instance : IsTrans Scope Scope.le :=
  ⟨fun _ _ _ hab hbc => Nat.le_trans hab hbc⟩

instance : IsAntisymm Scope Scope.le :=
  ⟨fun a b hab hba => Scope.toIdx_inj a b (Nat.le_antisymm hab hba)⟩

instance : IsTotal Scope Scope.le :=
  ⟨fun a b => Nat.le_total a.toIdx b.toIdx⟩

/-- `ScopeSet`, a wrapper over `HashSet<Scope>` (`src/auth/mod.rs`,
line 204), modelled as a `Finset Scope` (membership-based, unordered). -/
structure ScopeSet where
  scopes : Finset Scope
deriving DecidableEq

namespace ScopeSet

/-- `ScopeSet::new`: the empty set. -/
def new : ScopeSet := ⟨∅⟩

/-- `ScopeSet::is_empty`. -/
def is_empty (ss : ScopeSet) : Bool := decide (ss.scopes = ∅)

/-- `ScopeSet::contains`. -/
def contains (ss : ScopeSet) (scope : Scope) : Bool := decide (scope ∈ ss.scopes)

/-- `ScopeSet::insert` (`src/auth/mod.rs`, lines 280-286): inserting
`Scope::All` clears the set first; the returned flag is the underlying
`HashSet::insert` result (true when the value was not already present). -/
def insert (ss : ScopeSet) (scope : Scope) : ScopeSet × Bool :=
  let ss1 := if scope = Scope.All then ScopeSet.mk ∅ else ss
  (ScopeSet.mk (Insert.insert scope ss1.scopes), decide (scope ∉ ss1.scopes))

/-- `ScopeSet::remove`: `HashSet::remove`, returning whether the value
was present. -/
def remove (ss : ScopeSet) (scope : Scope) : ScopeSet × Bool :=
  (ScopeSet.mk (ss.scopes.erase scope), decide (scope ∈ ss.scopes))

/-- `FromIterator<Scope> for ScopeSet` (`src/auth/mod.rs`, lines
388-395): a plain `HashSet::from_iter`, with no special handling of
`Scope::All`. -/
def fromIter (l : List Scope) : ScopeSet := ⟨l.toFinset⟩

/-- `Serialize for ScopeSet` (`src/auth/mod.rs`, lines 406-425): sort
the members by the derived `Ord`, render each with `Display`, and join
with single spaces. -/
def serialize (ss : ScopeSet) : String :=
  let scope_vec := ss.scopes.sort Scope.le
  scope_vec.foldl
    (fun accumulator scope =>
      (if accumulator.isEmpty then accumulator else accumulator ++ " ") ++ scope.toStr)
    ""

/-- Rust `str::split_whitespace`: split the character sequence at
whitespace, dropping empty tokens. -/
def splitWhitespace (s : String) : List String :=
  let step : Char → List (List Char) → List (List Char) := fun c acc =>
    if c.isWhitespace then [] :: acc
    else match acc with
      | [] => [[c]]
      | w :: ws => (c :: w) :: ws
  ((s.toList.foldr step []).filter (fun w => !w.isEmpty)).map (fun w => String.mk w)

/-- `collect::<Result<_, _>>` over the parsed tokens: short-circuits at
the leftmost error. -/
def collectScopes : List (Except String Scope) → Except String (List Scope)
  | [] => .ok []
  | .error e :: _ => .error e
  | .ok sc :: rest => (collectScopes rest).map (fun l => sc :: l)

/-- `ScopesVisitor::visit_str` (`src/auth/mod.rs`, lines 436-444): split
the string on whitespace, parse each token with `Scope::from_str`, and
collect through `FromIterator` (any unknown token fails the whole
deserialization). -/
def deserializeStr (v : String) : Except String ScopeSet :=
  (collectScopes ((splitWhitespace v).map Scope.fromStr)).map fromIter

end ScopeSet

/-- `SnooErrorKind` (`src/error.rs`, lines 77-93). `SnooError` wraps a
kind with a failure context/backtrace, which carries no extra
observable data here, so errors are identified with their kind. -/
inductive SnooErrorKind where
  | BadCredentials
  | InvalidRequest
  | InvalidResponse
  | Forbidden
  | Unauthorized
  | UnsuccessfulResponse (code : Nat)
  | NetworkError
deriving DecidableEq

abbrev SnooError := SnooErrorKind

/-- `SnooBuilderError` as used by `Authenticator::new`
(`src/auth/authentication.rs`, line 56). -/
inductive SnooBuilderError where
  | MissingAuthFlow
  | MissingClientId
  | MissingUserAgent
  | HyperError
deriving DecidableEq

/-- `AppSecrets` (`src/auth/authentication.rs`, lines 141-144). -/
structure AppSecrets where
  client_id : String
  client_secret : Option String
deriving DecidableEq

/-- `AuthFlow` (`src/auth/authentication.rs`, lines 190-215). -/
inductive AuthFlow where
  | Code (code : String) (redirect_uri : String) (scope : ScopeSet)
  | Password (password : String) (username : String) (scope : ScopeSet)
  | RefreshToken (token : String)
deriving DecidableEq

/-- `AuthFlow::is_code`. -/
def AuthFlow.is_code : AuthFlow → Bool
  | .Code _ _ _ => true
  | _ => false

/-- `AuthFlow::is_password`. -/
def AuthFlow.is_password : AuthFlow → Bool
  | .Password _ _ _ => true
  | _ => false

/-- `AuthFlow::is_refresh_token`. -/
def AuthFlow.is_refresh_token : AuthFlow → Bool
  | .RefreshToken _ => true
  | _ => false

/-- `BearerToken` (`src/auth/authentication.rs`, lines 242-249).
`created_at : Instant` is a `Nat` timestamp in seconds. -/
structure BearerToken where
  access_token : String
  created_at : Nat
  expires_in : Nat
  refresh_token : Option String
  scope : ScopeSet
deriving DecidableEq

namespace BearerToken

/-- `BearerToken::new`: stamps `created_at` with `Instant::now()` (the
explicit `now` argument) and collects the scopes. -/
def new (now : Nat) (access_token : String) (expires_in : Nat)
    (refresh_token : Option String) (scope : List Scope) : BearerToken :=
  { access_token := access_token
    created_at := now
    expires_in := expires_in
    refresh_token := refresh_token
    scope := ScopeSet.fromIter scope }

/-- `BearerToken::is_expired` (`src/auth/authentication.rs`, lines
288-290): `created_at.elapsed().as_secs() >= expires_in`, with elapsed
time `now - created_at`. -/
def is_expired (t : BearerToken) (now : Nat) : Bool :=
  decide (t.expires_in ≤ now - t.created_at)

/-- `BearerToken::is_renewable`: presence of a refresh token. -/
def is_renewable (t : BearerToken) : Bool :=
  t.refresh_token.isSome

/-- `BearerToken::matches_scope` (`src/auth/authentication.rs`, lines
296-298). -/
def matches_scope (t : BearerToken) (scope : Scope) : Bool :=
  decide (scope = Scope.All) || t.scope.contains scope || t.scope.contains Scope.All

end BearerToken

/-- The underlying computation of an acquisition: either a pre-supplied
token (`BearerTokenFuture::Fixed`) or a token-endpoint exchange built by
`BearerTokenFuture::new` from an auth flow and the app secrets. -/
inductive FutSrc where
  | fixed (t : BearerToken)
  | exchange (flow : AuthFlow) (secrets : AppSecrets)
deriving DecidableEq

instance {ε α : Type} [DecidableEq ε] [DecidableEq α] : DecidableEq (Except ε α) := fun x y =>
  match x, y with
  | .ok a, .ok b =>
    if h : a = b then .isTrue (congrArg Except.ok h)
    else .isFalse (fun hc => h (Except.ok.inj hc))
  | .error a, .error b =>
    if h : a = b then .isTrue (congrArg Except.error h)
    else .isFalse (fun hc => h (Except.error.inj hc))
  | .ok _, .error _ => .isFalse (fun hc => Except.noConfusion hc)
  | .error _, .ok _ => .isFalse (fun hc => Except.noConfusion hc)

/-- A `Shared<BearerTokenFuture>` handle. `id` identifies the shared
cell: clones of one handle are equal values (same cell). `result` is
what `Shared::peek` reports — `none` while unresolved, otherwise the
memoized terminal value observed identically by every clone. -/
structure SharedFut where
  id : Nat
  src : FutSrc
  result : Option (Except SnooError BearerToken)
deriving DecidableEq

/-- `BearerTokenFuture::new(http_client, auth_flow, app_secrets).shared()`:
a fresh shared cell for one token-endpoint exchange driven by `flow`.
Each call issues exactly one underlying HTTP request. -/
def mkExchange (fresh : Nat) (flow : AuthFlow) (secrets : AppSecrets) : SharedFut :=
  { id := fresh, src := .exchange flow secrets, result := none }

/-- `BearerTokenFuture::from(bearer_token).shared()`: a fresh shared
cell wrapping an already-known token. -/
def mkFixed (fresh : Nat) (t : BearerToken) : SharedFut :=
  { id := fresh, src := .fixed t, result := none }

/-- `Authenticator` (`src/auth/authentication.rs`, lines 14-18). The two
mutexes guard the strategy slot and the shared handle; the policy runs
with both held, so it is modelled as one atomic step on this state. -/
structure Authenticator where
  app_secrets : AppSecrets
  auth_flow : Option AuthFlow
  bearer_token : SharedFut
deriving DecidableEq

namespace Authenticator

/-- `Authenticator::new` (`src/auth/authentication.rs`, lines 21-58):
with a pre-supplied token, keep the flow only if it is a password flow;
with only a flow, start an acquisition against it immediately and keep
it only if it is a password flow; with neither, fail. -/
def new (app_secrets : AppSecrets) (auth_flow : Option AuthFlow)
    (bearer_token : Option BearerToken) (fresh : Nat) :
    Except SnooBuilderError Authenticator :=
  match bearer_token with
  | some tok =>
    let auth_flow :=
      match auth_flow with
      | some flow => if flow.is_password then some flow else none
      | none => none
    .ok { app_secrets := app_secrets
          auth_flow := auth_flow
          bearer_token := mkFixed fresh tok }
  | none =>
    match auth_flow with
    | some flow =>
      .ok { app_secrets := app_secrets
            auth_flow := if flow.is_password then some flow else none
            bearer_token := mkExchange fresh flow app_secrets }
    | none => .error .MissingAuthFlow

/-- `Authenticator::bearer_token` (`src/auth/authentication.rs`, lines
60-136) — the spec's `obtain(forceRenew)`. One atomic step (the Rust
code holds both mutex guards throughout): inspects `Shared::peek` of the
cached handle and the strategy slot, follows the three match arms in
source order, and returns a clone of the (possibly replaced) handle.
`now` is the current time used by `is_expired`; `fresh` identifies the
shared cell a new exchange would occupy. -/
def obtain (st : Authenticator) (renew : Bool) (now fresh : Nat) :
    Authenticator × SharedFut :=
  let st1 :=
    match st.bearer_token.result, st.auth_flow with
    | some (Except.ok tok), flowOpt =>
      if tok.is_expired now && tok.is_renewable then
        -- arm 1: expired and renewable — synthesize a RefreshToken flow
        { st with
          bearer_token :=
            mkExchange fresh (AuthFlow.RefreshToken tok.refresh_token.iget)
              st.app_secrets }
      else if tok.is_expired now && !tok.is_renewable then
        match flowOpt with
        | some flow =>
          -- arm 2: expired, not renewable, flow present — take the flow,
          -- put it back only if it is a password flow
          { st with
            auth_flow := if flow.is_password then some flow else none
            bearer_token := mkExchange fresh flow st.app_secrets }
        | none =>
          -- arm 3 requires a flow; none is present
          st
      else
        match flowOpt with
        | some flow =>
          if renew then
            -- arm 3: flow present and renew requested
            { st with
              auth_flow := if flow.is_password then some flow else none
              bearer_token := mkExchange fresh flow st.app_secrets }
          else st
        | none => st
    | _, some flow =>
      if renew then
        -- arm 3 on an unresolved or failed handle
        { st with
          auth_flow := if flow.is_password then some flow else none
          bearer_token := mkExchange fresh flow st.app_secrets }
      else st
    | _, none => st
  (st1, st1.bearer_token)

end Authenticator

/-- The wire body of a token-endpoint response, as seen by
`serde_json::from_slice::<BearerToken>`: either not a well-formed
`BearerToken` document, or a document with the consumed fields.
`wire_created_at` stands for a `created_at` field present on the wire,
which the deserializer skips (`#[serde(skip_deserializing)]`); `scope`
is the raw space-joined scope string handed to the `ScopeSet`
deserializer. -/
inductive RespBody where
  | malformed
  | wellFormed (access_token : String) (wire_created_at : Option Nat)
      (expires_in : Nat) (refresh_token : Option String) (scope : String)
deriving DecidableEq

/-- `serde_json::from_slice::<BearerToken>` on a response body:
`created_at` is stamped with `Instant::now()` (the `now` argument) via
the serde default, never read from the wire; an unknown scope token
fails the whole parse. Returns `none` on any deserialization error. -/
def deserializeBearerToken (now : Nat) : RespBody → Option BearerToken
  | .malformed => none
  | .wellFormed a _ e r s =>
    match ScopeSet.deserializeStr s with
    | .error _ => none
    | .ok sc =>
      some { access_token := a, created_at := now, expires_in := e
             refresh_token := r, scope := sc }

/-- `StatusCode::is_success`: 2xx. -/
def isSuccessStatus (status : Nat) : Bool := 200 ≤ status && status < 300

/-- `BearerTokenFuture` (`src/auth/authentication.rs`, lines 304-310).
The inner HTTP future is external state, so it is modelled as `Unit`
with its poll result supplied as an input to `poll`. -/
inductive BearerTokenFuture where
  | Fixed (bearer_token : Option BearerToken)
  | Future (error : Option SnooError) (future : Option Unit)
deriving DecidableEq

/-- The poll result of the inner `HttpResponseFuture`, an input to
`BearerTokenFuture.poll`: a transport error, not ready, or a buffered
response `(response_instant, status, body)` (headers carry no observable
data here; the response instant is ignored by the caller). -/
inductive InnerPoll where
  | ioError (e : SnooError)
  | notReady
  | ready (respTime : Nat) (status : Nat) (body : RespBody)
deriving DecidableEq

/-- The outcome of one `poll`: `Poll::Ready` with a token, `NotReady`,
`Err`, or the `panic!("future has already completed!")` fault. -/
inductive PollOutcome where
  | ready (t : BearerToken)
  | notReady
  | failed (e : SnooError)
  | fault
deriving DecidableEq

/-- `Future::poll for BearerTokenFuture` (`src/auth/authentication.rs`,
lines 345-385). `inner` is what polling the inner HTTP future would
yield (unused unless that branch runs); `now` is the parse-time instant
used to stamp `created_at`. Returns the future's successor state and
the outcome; falling through every branch is the panic fault. -/
def BearerTokenFuture.poll (fut : BearerTokenFuture) (inner : InnerPoll)
    (now : Nat) : BearerTokenFuture × PollOutcome :=
  match fut with
  | .Fixed bt =>
    match bt with
    | some t => (.Fixed none, .ready t)
    | none => (.Fixed none, .fault)
  | .Future err futOpt =>
    match err with
    | some e => (.Future none futOpt, .failed e)
    | none =>
      match futOpt with
      | some _ =>
        match inner with
        | .ioError e => (.Future none none, .failed e)
        | .notReady => (.Future none (some ()), .notReady)
        | .ready _ status body =>
          if !isSuccessStatus status then
            (.Future none none, .failed (.UnsuccessfulResponse status))
          else
            match deserializeBearerToken now body with
            | some t => (.Future none none, .ready t)
            | none => (.Future none none, .failed .InvalidResponse)
      | none => (.Future none none, .fault)

/-- One interleaving of `obtain(false)` calls serialized by the
authenticator's guard: runs the calls left to right, collecting the
handle each caller receives. -/
def runObtains (st : Authenticator) : List (Nat × Nat) → Authenticator × List SharedFut
  | [] => (st, [])
  | (now, fresh) :: rest =>
    let step := st.obtain false now fresh
    let restRun := runObtains step.1 rest
    (restRun.1, step.2 :: restRun.2)

/-- ScopeSets reachable through the public `ScopeSet` operations:
`new`, `insert`, `remove`, collection from an iterator, and
deserialization. -/
inductive ReachableScopeSet : ScopeSet → Prop where
  | newInit : ReachableScopeSet ScopeSet.new
  | insertStep (s : ScopeSet) (sc : Scope) :
      ReachableScopeSet s → ReachableScopeSet (s.insert sc).1
  | removeStep (s : ScopeSet) (sc : Scope) :
      ReachableScopeSet s → ReachableScopeSet (s.remove sc).1
  | collectStep (l : List Scope) : ReachableScopeSet (ScopeSet.fromIter l)
  | deserializeStep (v : String) (s : ScopeSet) :
      ScopeSet.deserializeStr v = .ok s → ReachableScopeSet s

/-- Sample app secrets for concrete instantiations. -/
def sampleSecrets : AppSecrets := { client_id := "abc123", client_secret := none }

/-- Sample password flow (the reusable strategy kind). -/
def samplePassword : AuthFlow := .Password "hunter2" "spez" ScopeSet.new

/-- Sample token: issued at 0, ttl 10, carrying a refresh token. -/
def sampleRenewableTok : BearerToken :=
  { access_token := "at", created_at := 0, expires_in := 10
    refresh_token := some "rt", scope := ScopeSet.new }

/-- Sample token: issued at 0, ttl 10, no refresh token. -/
def sampleNonRenewableTok : BearerToken :=
  { access_token := "at", created_at := 0, expires_in := 10
    refresh_token := none, scope := ScopeSet.new }

/-- Sample token: issued at 0, ttl 100, no refresh token (still valid
at the small sample times). -/
def sampleFreshTok : BearerToken :=
  { access_token := "at2", created_at := 0, expires_in := 100
    refresh_token := none, scope := ScopeSet.new }

/-!
Theorems checking the specification claims against the embedding.
-/

/-- C5: a `Fixed`-variant acquisition yields its credential on the
first poll, exactly once, and any later poll of the drained future
faults (the one-shot panic) rather than yielding the credential again
or pending. -/
theorem fixed_future_one_shot (t : BearerToken) (inner : InnerPoll) (now : Nat) :
    (BearerTokenFuture.Fixed (some t)).poll inner now
      = (BearerTokenFuture.Fixed none, PollOutcome.ready t) ∧
    ∀ (inner2 : InnerPoll) (now2 : Nat),
      ((BearerTokenFuture.Fixed none).poll inner2 now2).2 = PollOutcome.fault :=
  ⟨rfl, fun _ _ => rfl⟩

/-- C7 counterexample: the claim says `is_expired()` is false
immediately after construction for any `ttl_seconds`, but a credential
constructed with `ttl_seconds = 0` is already expired at elapsed time
zero (`0 >= 0`). -/
theorem credential_expiry_cex :
    (BearerToken.new 0 "abc123" 0 none []).is_expired 0 = true := by decide

/-- C7 amended: for any `ttl_seconds > 0`, `is_expired()` is false
immediately after construction, and at any later time it is true
exactly when the elapsed time is at least `ttl_seconds` (exact equality
counts as expired). -/
theorem credential_expiry_amended (a : String) (c ttl elapsed : Nat)
    (r : Option String) (sc : List Scope) (h : 0 < ttl) :
    (BearerToken.new c a ttl r sc).is_expired c = false ∧
    ((BearerToken.new c a ttl r sc).is_expired (c + elapsed) = true ↔ ttl ≤ elapsed) := by
  constructor
  · simp [BearerToken.new, BearerToken.is_expired]
    omega
  · simp [BearerToken.new, BearerToken.is_expired]

/-- C7 witness: a 10-second credential issued at time 0 is not expired
at time 0 and is expired exactly at elapsed 10. -/
theorem credential_expiry_amended_witness :
    (BearerToken.new 0 "abc123" 10 none []).is_expired 0 = false ∧
    ((BearerToken.new 0 "abc123" 10 none []).is_expired (0 + 10) = true ↔ (10 : Nat) ≤ 10) :=
  credential_expiry_amended "abc123" 0 10 10 none [] (by decide)

/-- C6 counterexample: the invariant "a ScopeSet containing `All`
contains nothing else" is not preserved by the public operations — the
reachable set `new → insert All → insert Account` contains both `All`
and `Account`. -/
theorem scope_all_invariant_cex :
    ReachableScopeSet ((ScopeSet.new.insert Scope.All).1.insert Scope.Account).1 ∧
    ((ScopeSet.new.insert Scope.All).1.insert Scope.Account).1.contains Scope.All = true ∧
    ((ScopeSet.new.insert Scope.All).1.insert Scope.Account).1.contains Scope.Account = true ∧
    Scope.Account ≠ Scope.All := by
  refine ⟨?_, by decide, by decide, by decide⟩
  exact ReachableScopeSet.insertStep _ _
    (ReachableScopeSet.insertStep _ _ ReachableScopeSet.newInit)

/-- C6 amended: inserting `Scope::All` into a ScopeSet of any prior
contents yields a set containing only `All`, and doing so is
idempotent; but the invariant is not maintained by the other public
operations (a later insert, from-iterator, or deserialization can put
other members next to `All`). -/
theorem scope_insert_all_only_all (s : ScopeSet) :
    (s.insert Scope.All).1 = ScopeSet.mk {Scope.All} ∧
    ((s.insert Scope.All).1.insert Scope.All).1 = (s.insert Scope.All).1 :=
  ⟨rfl, rfl⟩

/-- C8: when a token exchange completes, a non-2xx status yields
`UnsuccessfulResponse(status)`; a 2xx status with a body that does not
parse as a credential (including an unknown scope token) yields
`InvalidResponse`; a 2xx status with a well-formed body yields a
credential whose `created_at` is stamped at parse time, never taken
from the wire. -/
theorem exchange_completion (rt status : Nat) (body : RespBody) (now : Nat) :
    (¬ isSuccessStatus status = true →
      ((BearerTokenFuture.Future none (some ())).poll (.ready rt status body) now).2
        = PollOutcome.failed (.UnsuccessfulResponse status)) ∧
    (isSuccessStatus status = true → deserializeBearerToken now body = none →
      ((BearerTokenFuture.Future none (some ())).poll (.ready rt status body) now).2
        = PollOutcome.failed .InvalidResponse) ∧
    (isSuccessStatus status = true → ∀ t, deserializeBearerToken now body = some t →
      ((BearerTokenFuture.Future none (some ())).poll (.ready rt status body) now).2
        = PollOutcome.ready t ∧ t.created_at = now) := by
  refine ⟨?_, ?_, ?_⟩
  · intro h
    have hb : isSuccessStatus status = false := by
      cases hs : isSuccessStatus status
      · rfl
      · exact absurd hs h
    simp [BearerTokenFuture.poll, hb]
  · intro hs hd
    simp [BearerTokenFuture.poll, hs, hd]
  · intro hs t ht
    refine ⟨by simp [BearerTokenFuture.poll, hs, ht], ?_⟩
    cases body with
    | malformed => simp [deserializeBearerToken] at ht
    | wellFormed a w e r s =>
      simp only [deserializeBearerToken] at ht
      split at ht
      · cases ht
      · have h2 := Option.some.inj ht
        subst h2
        rfl

/-- C8 witness: a 401 response resolves to `UnsuccessfulResponse(401)`. -/
theorem exchange_completion_witness :
    ((BearerTokenFuture.Future none (some ())).poll (.ready 0 401 .malformed) 5).2
      = PollOutcome.failed (.UnsuccessfulResponse 401) :=
  (exchange_completion 0 401 .malformed 5).1 (by decide)

/-- The sorted member list of the set {Account, History, Identity}
under the derived `Ord`. -/
theorem sort_account_history_identity :
    Finset.sort Scope.le
        (ScopeSet.fromIter [Scope.Account, Scope.History, Scope.Identity]).scopes
      = [Scope.Account, Scope.History, Scope.Identity] := by
  refine List.eq_of_perm_of_sorted ?_ (Finset.sort_sorted Scope.le _) ?_
  · rw [← Multiset.coe_eq_coe, Finset.sort_eq]
    decide
  · decide

/-- C9: serializing the ScopeSet {Account, History, Identity} yields
the canonical sorted, space-joined string; deserializing that string
round-trips to an equal set; and deserializing an unknown scope token
fails. -/
theorem scope_serialization_round_trip :
    ScopeSet.serialize (ScopeSet.fromIter [Scope.Account, Scope.History, Scope.Identity])
      = "account history identity" ∧
    ScopeSet.deserializeStr "account history identity"
      = .ok (ScopeSet.fromIter [Scope.Account, Scope.History, Scope.Identity]) ∧
    ScopeSet.deserializeStr "unknown_scope" = .error "unknown scope unknown_scope" := by
  refine ⟨?_, by decide, by decide⟩
  simp only [ScopeSet.serialize]
  rw [sort_account_history_identity]
  decide

/-- C10: `matches_scope` accepts the wildcard request `All`
unconditionally (even on an empty scope set), and otherwise accepts
exactly the scopes in the credential's set or anything when the set
holds `All`. -/
theorem matches_scope_spec (t : BearerToken) (s : Scope) :
    t.matches_scope s = true ↔
      (s = Scope.All ∨ s ∈ t.scope.scopes ∨ Scope.All ∈ t.scope.scopes) := by
  simp [BearerToken.matches_scope, ScopeSet.contains, or_assoc]

/-- C1: with a cached credential that is expired and carries a refresh
token, `obtain` — for either value of `renew`, whatever strategy is
stored — installs a new acquisition driven by a transient
`RefreshToken` strategy synthesized from that refresh token, leaves the
stored strategy slot exactly as it was, and returns the new handle. -/
theorem obtain_expired_renewable_refreshes (st : Authenticator) (renew : Bool)
    (now fresh : Nat) (tok : BearerToken) (r : String)
    (hpeek : st.bearer_token.result = some (.ok tok))
    (hexp : tok.is_expired now = true)
    (href : tok.refresh_token = some r) :
    (st.obtain renew now fresh).1.auth_flow = st.auth_flow ∧
    (st.obtain renew now fresh).1.bearer_token
      = mkExchange fresh (AuthFlow.RefreshToken r) st.app_secrets ∧
    (st.obtain renew now fresh).2 = (st.obtain renew now fresh).1.bearer_token := by
  have hren : tok.is_renewable = true := by
    simp [BearerToken.is_renewable, href]
  simp [Authenticator.obtain, hpeek, hexp, hren, href]

/-- C1 witness: expired renewable credential with a stored Password
strategy, `obtain(false)`: the slot keeps the Password strategy and the
new exchange is a `refresh_token` exchange. -/
theorem obtain_expired_renewable_refreshes_witness :
    (Authenticator.obtain
        { app_secrets := sampleSecrets, auth_flow := some samplePassword
          bearer_token :=
            { id := 0, src := .fixed sampleRenewableTok
              result := some (.ok sampleRenewableTok) } }
        false 10 1).1.auth_flow = some samplePassword ∧
    (Authenticator.obtain
        { app_secrets := sampleSecrets, auth_flow := some samplePassword
          bearer_token :=
            { id := 0, src := .fixed sampleRenewableTok
              result := some (.ok sampleRenewableTok) } }
        false 10 1).1.bearer_token
      = mkExchange 1 (AuthFlow.RefreshToken "rt") sampleSecrets := by
  have h := obtain_expired_renewable_refreshes
    { app_secrets := sampleSecrets, auth_flow := some samplePassword
      bearer_token :=
        { id := 0, src := .fixed sampleRenewableTok
          result := some (.ok sampleRenewableTok) } }
    false 10 1 sampleRenewableTok "rt" rfl (by decide) rfl
  exact ⟨h.1, h.2.1⟩

/-- C2: when the cached credential has resolved expired without a
refresh token, or when `renew` is forced and rule 1 does not apply, and
a strategy is stored, `obtain` drives a new acquisition with that
strategy and puts it back into the slot exactly when it is a Password
strategy (single-use strategies leave the slot empty). -/
theorem obtain_strategy_renewal (st : Authenticator) (renew : Bool)
    (now fresh : Nat) (flow : AuthFlow)
    (hflow : st.auth_flow = some flow)
    (hcond :
      (∃ tok, st.bearer_token.result = some (.ok tok) ∧
        tok.is_expired now = true ∧ tok.is_renewable = false) ∨
      (renew = true ∧
        ¬ ∃ tok, st.bearer_token.result = some (.ok tok) ∧
          tok.is_expired now = true ∧ tok.is_renewable = true)) :
    (st.obtain renew now fresh).1.bearer_token = mkExchange fresh flow st.app_secrets ∧
    (st.obtain renew now fresh).1.auth_flow
      = (if flow.is_password then some flow else none) ∧
    (st.obtain renew now fresh).2 = (st.obtain renew now fresh).1.bearer_token := by
  rcases hcond with ⟨tok, hpeek, hexp, hnren⟩ | ⟨hren, hno⟩
  · simp [Authenticator.obtain, hpeek, hflow, hexp, hnren]
  · subst hren
    rcases hres : st.bearer_token.result with _ | res
    · simp [Authenticator.obtain, hres, hflow]
    · rcases res with e | tok
      · simp [Authenticator.obtain, hres, hflow]
      · have hnotboth : ¬ (tok.is_expired now = true ∧ tok.is_renewable = true) :=
          fun hb => hno ⟨tok, hres, hb.1, hb.2⟩
        cases hexp2 : tok.is_expired now with
        | false => simp [Authenticator.obtain, hres, hflow, hexp2]
        | true =>
          cases hren2 : tok.is_renewable with
          | false => simp [Authenticator.obtain, hres, hflow, hexp2, hren2]
          | true => exact absurd ⟨hexp2, hren2⟩ hnotboth

/-- C2 witness: stored Password strategy, unresolved cached handle,
`obtain(true)`: a password exchange is installed and the Password
strategy is restored to the slot. -/
theorem obtain_strategy_renewal_witness :
    (Authenticator.obtain
        { app_secrets := sampleSecrets, auth_flow := some samplePassword
          bearer_token := mkExchange 0 samplePassword sampleSecrets }
        true 0 1).1.bearer_token = mkExchange 1 samplePassword sampleSecrets ∧
    (Authenticator.obtain
        { app_secrets := sampleSecrets, auth_flow := some samplePassword
          bearer_token := mkExchange 0 samplePassword sampleSecrets }
        true 0 1).1.auth_flow = some samplePassword := by
  have h := obtain_strategy_renewal
    { app_secrets := sampleSecrets, auth_flow := some samplePassword
      bearer_token := mkExchange 0 samplePassword sampleSecrets }
    true 0 1 samplePassword rfl (Or.inr ⟨rfl, by simp [mkExchange]⟩)
  exact ⟨h.1, h.2.1⟩

/-- C3: when neither renewal rule applies — no resolved
expired-and-renewable credential, no resolved expired-non-renewable
credential alongside a stored strategy, and no forced renewal with a
stored strategy — `obtain` mutates nothing and returns a clone of the
existing handle, for either value of `renew`. -/
theorem obtain_otherwise_frame (st : Authenticator) (renew : Bool) (now fresh : Nat)
    (hno1 : ¬ ∃ tok, st.bearer_token.result = some (.ok tok) ∧
        tok.is_expired now = true ∧ tok.is_renewable = true)
    (hno2 : ¬ ∃ tok flow, st.bearer_token.result = some (.ok tok) ∧
        st.auth_flow = some flow ∧ tok.is_expired now = true ∧ tok.is_renewable = false)
    (hno3 : ¬ (renew = true ∧ ∃ flow, st.auth_flow = some flow)) :
    st.obtain renew now fresh = (st, st.bearer_token) := by
  rcases hres : st.bearer_token.result with _ | res
  · rcases hfl : st.auth_flow with _ | flow
    · simp [Authenticator.obtain, hres, hfl]
    · have hr : renew = false := by
        cases renew
        · rfl
        · exact absurd ⟨rfl, flow, hfl⟩ hno3
      simp [Authenticator.obtain, hres, hfl, hr]
  · rcases res with e | tok
    · rcases hfl : st.auth_flow with _ | flow
      · simp [Authenticator.obtain, hres, hfl]
      · have hr : renew = false := by
          cases renew
          · rfl
          · exact absurd ⟨rfl, flow, hfl⟩ hno3
        simp [Authenticator.obtain, hres, hfl, hr]
    · cases hexp2 : tok.is_expired now with
      | false =>
        rcases hfl : st.auth_flow with _ | flow
        · simp [Authenticator.obtain, hres, hfl, hexp2]
        · have hr : renew = false := by
            cases renew
            · rfl
            · exact absurd ⟨rfl, flow, hfl⟩ hno3
          simp [Authenticator.obtain, hres, hfl, hexp2, hr]
      | true =>
        cases hren2 : tok.is_renewable with
        | true => exact absurd ⟨tok, hres, hexp2, hren2⟩ hno1
        | false =>
          rcases hfl : st.auth_flow with _ | flow
          · simp [Authenticator.obtain, hres, hfl, hexp2, hren2]
          · exact absurd ⟨tok, flow, hres, hfl, hexp2, hren2⟩ hno2

/-- C3 witness: empty strategy slot, unresolved handle, `obtain(true)`:
state and handle are unchanged. -/
theorem obtain_otherwise_frame_witness :
    Authenticator.obtain
        { app_secrets := sampleSecrets, auth_flow := none
          bearer_token := mkExchange 0 samplePassword sampleSecrets }
        true 7 1
      = ({ app_secrets := sampleSecrets, auth_flow := none
           bearer_token := mkExchange 0 samplePassword sampleSecrets },
         mkExchange 0 samplePassword sampleSecrets) :=
  obtain_otherwise_frame
    { app_secrets := sampleSecrets, auth_flow := none
      bearer_token := mkExchange 0 samplePassword sampleSecrets }
    true 7 1 (by simp [mkExchange]) (by simp [mkExchange]) (by simp)

/-- C4: any number of `obtain(false)` calls serialized by the guard
before the cached acquisition resolves leave the state untouched and
hand every caller the same shared handle (the same cell, hence the
identical memoized resolution), so no additional exchange — and no
additional HTTP call — is started. -/
theorem concurrent_obtains_share_handle (st : Authenticator)
    (calls : List (Nat × Nat))
    (hpend : st.bearer_token.result = none) :
    runObtains st calls = (st, calls.map fun _ => st.bearer_token) := by
  induction calls with
  | nil => rfl
  | cons c rest ih =>
    obtain ⟨now, fresh⟩ := c
    have hstep : st.obtain false now fresh = (st, st.bearer_token) := by
      rcases hfl : st.auth_flow with _ | flow
      · simp [Authenticator.obtain, hpend, hfl]
      · simp [Authenticator.obtain, hpend, hfl]
    simp [runObtains, hstep, ih]

/-- C4 witness: two racing `obtain(false)` calls on a pending exchange
both receive the original handle and the state is unchanged. -/
theorem concurrent_obtains_share_handle_witness :
    runObtains
        { app_secrets := sampleSecrets, auth_flow := some samplePassword
          bearer_token := mkExchange 0 samplePassword sampleSecrets }
        [(5, 1), (6, 2)]
      = ({ app_secrets := sampleSecrets, auth_flow := some samplePassword
           bearer_token := mkExchange 0 samplePassword sampleSecrets },
         [mkExchange 0 samplePassword sampleSecrets,
          mkExchange 0 samplePassword sampleSecrets]) :=
  concurrent_obtains_share_handle
    { app_secrets := sampleSecrets, auth_flow := some samplePassword
      bearer_token := mkExchange 0 samplePassword sampleSecrets }
    [(5, 1), (6, 2)] rfl

end Snoo
